import Mathlib

/-!
Shallow embedding of the chat / analysis backend (packages/functions):
the ChatService conversation orchestrator, the AnalysisService, the
BedrockClient violation analysis, and the DynamoDBService table access
that they perform against the chat-sessions and chat-messages tables
(key schemas from packages/database/src/schemas/dynamodb.ts).

External managed services (DynamoDB, OpenSearch, Bedrock) are modelled as
follows: the state held in DynamoDB tables is an explicit `Store` value and
each table round trip both consults that state and consumes an
environment-supplied outcome (`Except Err ...`) standing for the success or
failure of the network call; Bedrock and OpenSearch results are opaque
environment outcomes, since their values are produced outside this
repository.  Timestamps are natural numbers: the source uses ISO-8601
strings from `new Date().toISOString()`, whose lexicographic order as a
DynamoDB string sort key agrees with the time order, so `Nat` with its
order is a faithful abstraction of the sort key.
-/

set_option linter.unusedVariables false

namespace AwsAi

/-- Error identities thrown by the services: the typed AppError codes
(NOT_FOUND, FORBIDDEN, INVALID_SESSION) and the generic `new Error`
wrappers produced by the adapter catch blocks (DynamoDBService,
BedrockClient, OpenSearchClient), plus the two JavaScript-level failure
kinds reachable in the analysis path (JSON.parse failure wrapper, and the
TypeError raised by a property access on null). -/
inductive Err where
  | notFound
  | forbidden
  | invalidSession
  | dynamoFail
  | bedrockFail
  | openSearchFail
  | parseFail
  | jsTypeError
  deriving DecidableEq, Repr

/-- Message role, the closed two-valued enumeration "user" | "assistant". -/
inductive Role where
  | user
  | assistant
  deriving DecidableEq, Repr

/-- Source reference embedded in assistant message metadata and in the
ChatResponse (service.ts, sources mapping in sendMessage). -/
structure SourceRef where
  id : String
  title : String
  excerpt : String
  relevance : ℚ
  source : String
  deriving DecidableEq, Repr

/-- Metadata attached to an assistant ChatMessage (tokensUsed,
processingTime, sources).  On user messages the metadata field is absent. -/
structure MsgMeta where
  tokensUsed : Nat
  processingTime : Nat
  sources : List SourceRef
  deriving DecidableEq, Repr

/-- ChatMessage as stored in the chat-messages table.  The timestamp is the
range key of the table (sessionId HASH, timestamp RANGE). -/
structure ChatMessage where
  id : String
  sessionId : String
  role : Role
  content : String
  timestamp : Nat
  metadata : Option MsgMeta
  deriving DecidableEq, Repr

/-- ChatSession as stored in the chat-sessions table (key: id).  The
free-form metadata map of the source is not modelled; no verified claim
concerns it. -/
structure ChatSession where
  id : String
  userId : String
  title : String
  createdAt : Nat
  updatedAt : Nat
  isActive : Bool
  deriving DecidableEq, Repr

/-- One hit returned by OpenSearchClient.hybridSearch: document id, score,
and the source document fields read by the orchestrator (title, content,
source), each of which may be absent on the wire. -/
structure SearchHit where
  id : String
  score : ℚ
  title : Option String
  content : Option String
  source : Option String
  deriving DecidableEq, Repr

/-- Reply of BedrockClient.invokeChat: content plus usage token counts. -/
structure BedrockReply where
  content : String
  inputTokens : Nat
  outputTokens : Nat
  deriving DecidableEq, Repr

/-- One entry of the message list assembled for the model invocation. -/
structure BedrockMsg where
  role : Role
  content : String
  deriving DecidableEq, Repr

/-- Usage metadata of a ChatResponse. -/
structure ChatResponseMeta where
  tokensUsed : Nat
  processingTime : Nat
  confidence : ℚ
  deriving DecidableEq, Repr

/-- ChatResponse returned by sendMessage.  In the source the sources and
metadata fields are optional in the type but are always populated on the
success path, so they are modelled as required. -/
structure ChatResponse where
  message : String
  sessionId : String
  sources : List SourceRef
  metadata : ChatResponseMeta
  deriving DecidableEq, Repr

/-- State of the two DynamoDB tables used by the orchestrator plus the
chat-context OpenSearch index written by indexConversation.  Table items
are kept as unordered lists; reads go through key lookup or sorted query,
matching the key schemas of dynamodb.ts. -/
structure Store where
  sessions : List ChatSession
  messages : List ChatMessage
  chatContext : List (String × ChatMessage)
  deriving DecidableEq, Repr

/-- Models DynamoDB PutItem on the chat-sessions table (key: id): the item
with the same key, if any, is replaced. -/
def putSession (st : Store) (s : ChatSession) : Store :=
  { st with sessions := s :: st.sessions.filter (fun x => !(x.id == s.id)) }

/-- Models DynamoDB PutItem on the chat-messages table (composite key
sessionId HASH, timestamp RANGE): the item with the same full key, if any,
is replaced — PutItem is an unconditional overwrite, the orchestrator
passes no condition expression. -/
def putMessage (st : Store) (m : ChatMessage) : Store :=
  { st with
    messages :=
      m :: st.messages.filter
        (fun x => !(x.sessionId == m.sessionId && x.timestamp == m.timestamp)) }

/-- Models DynamoDBService.getChatSession: GetItem on chat-sessions by id. -/
def getChatSession (st : Store) (sessionId : String) : Option ChatSession :=
  st.sessions.find? (fun s => s.id == sessionId)

/-- Models the UpdateCommand issued on the chat-sessions table with a SET
expression.  Both orchestrator call sites (deleteSession, sendMessage)
run after a successful getSession, so the upsert-on-missing-key branch of
DynamoDB UpdateItem is never reached and is not modelled. -/
def updateSessionItem (st : Store) (sessionId : String)
    (f : ChatSession → ChatSession) : Store :=
  { st with
    sessions := st.sessions.map (fun s => if s.id == sessionId then f s else s) }

/-- Comparison used to read the chat-messages partition in sort-key order. -/
def msgLe (a b : ChatMessage) : Prop :=
  a.timestamp ≤ b.timestamp

instance : DecidableRel msgLe := fun a b => Nat.decLe a.timestamp b.timestamp

instance : IsTotal ChatMessage msgLe := ⟨fun a b => Nat.le_total a.timestamp b.timestamp⟩

instance : IsTrans ChatMessage msgLe := ⟨fun a b c h1 h2 => Nat.le_trans h1 h2⟩

/-- Messages of one session in ascending sort-key (timestamp) order: the
order in which a DynamoDB Query with ScanIndexForward = true reads the
partition of the chat-messages table. -/
def sessionMessages (st : Store) (sessionId : String) : List ChatMessage :=
  List.insertionSort msgLe (st.messages.filter (fun m => m.sessionId == sessionId))

/-- Models DynamoDBService.getChatMessages: a Query on chat-messages with
key condition sessionId = :sessionId and sortAscending true.  A Limit, when
set, caps the number of items read in sort-key order from the start of the
partition (DynamoDB Query semantics: Limit bounds the items evaluated
forward from the lowest sort key when ScanIndexForward is true).  The
source guards the Limit with a JavaScript truthiness test
(`if (options.limit)`), so a limit of 0 leaves the Limit unset.  The
pagination continuation key is not modelled; no verified claim uses it. -/
def getChatMessages (st : Store) (sessionId : String) (limit : Option Nat) :
    List ChatMessage :=
  match limit with
  | none => sessionMessages st sessionId
  | some l => if l = 0 then sessionMessages st sessionId
              else (sessionMessages st sessionId).take l

/-- Models the JavaScript `xs.slice(-n)`: the last n elements (for n = 0,
slice(-0) is slice(0), the whole array). -/
def jsSliceLast (n : Nat) (xs : List α) : List α :=
  if n = 0 then xs else xs.drop (xs.length - n)

/-- Models the JavaScript string expression `x || d` where x may be absent:
undefined and the empty string are falsy, any other string is kept. -/
def jsStrOr (x : Option String) (d : String) : String :=
  match x with
  | none => d
  | some s => if s = "" then d else s

/-- The 62-character alphabet of generateId (shared/src/utils/crypto.ts). -/
def idChars : List Char :=
  "ABCDEFGHIJKLMNOPQRSTUVWXYZabcdefghijklmnopqrstuvwxyz0123456789".data

theorem idChars_length : idChars.length = 62 := rfl

/-- Character chosen by one loop iteration of generateId: chars.charAt of
Math.floor(Math.random() * chars.length), whose outcome is a number below
62, here a Fin 62 draw. -/
def idCharAt (i : Fin 62) : Char :=
  idChars.get (Fin.cast idChars_length.symm i)

/-- generateId from shared/src/utils/crypto.ts: an 8-character random
suffix over the 62-character alphabet, prefixed with `pre + "_"` when the
prefix is non-empty.  The outcomes of the Math.random draws are passed
explicitly (one Fin 62 per loop iteration; the callers use the default
length 8, so their draw lists have length 8). -/
def generateId (pre : String) (draws : List (Fin 62)) : String :=
  let suffix := String.mk (draws.map idCharAt)
  if pre = "" then suffix else pre ++ "_" ++ suffix

/-- Models ChatService.getSession: GetItem, then NotFound when absent,
Forbidden when the owning user differs from the caller. -/
def getSession (st : Store) (sessionId userId : String) : Except Err ChatSession :=
  match getChatSession st sessionId with
  | none => .error .notFound
  | some session =>
      if session.userId ≠ userId then .error .forbidden else .ok session

/-- Environment of one createSession call: the Math.random outcomes inside
generateId, the clock value of `new Date()`, and the outcome of the
chat-sessions PutItem round trip. -/
structure CreateEnv where
  draws : List (Fin 62)
  now : Nat
  putResult : Except Err Unit
  deriving Repr

/-- Models ChatService.createSession: mint a "sess"-prefixed id, build the
session with createdAt = updatedAt = now and isActive = true, and put it. -/
def createSession (st : Store) (env : CreateEnv) (userId title : String) :
    Store × Except Err ChatSession :=
  let session : ChatSession :=
    { id := generateId "sess" env.draws
      userId := userId
      title := title
      createdAt := env.now
      updatedAt := env.now
      isActive := true }
  match env.putResult with
  | .error e => (st, .error e)
  | .ok _ => (putSession st session, .ok session)

/-- Environment of one deleteSession call: the outcome of the chat-sessions
UpdateItem round trip and the clock value used for updatedAt. -/
structure DeleteEnv where
  updateResult : Except Err Unit
  now : Nat
  deriving Repr

/-- Models ChatService.deleteSession: verify ownership via getSession, then
soft-delete by an UpdateItem setting isActive = false and updatedAt = now.
On failure the store is returned unchanged together with the error. -/
def deleteSession (st : Store) (env : DeleteEnv) (sessionId userId : String) :
    Store × Except Err Unit :=
  match getSession st sessionId userId with
  | .error e => (st, .error e)
  | .ok _ =>
      match env.updateResult with
      | .error e => (st, .error e)
      | .ok _ =>
          (updateSessionItem st sessionId
            (fun s => { s with isActive := false, updatedAt := env.now }),
           .ok ())

/-- Models ChatService.getChatHistory: getChatMessages with the doubled
limit (limit * 2), then `.slice(-limit)` of the returned page. -/
def getChatHistory (st : Store) (sessionId : String) (limit : Nat) :
    List ChatMessage :=
  jsSliceLast limit (getChatMessages st sessionId (some (limit * 2)))

/-- Environment of one sendMessage call: the id-generator draws and clock
values consumed along the way, and one outcome per external round trip, in
program order.  historyFetch is the outcome of the chat-messages Query
round trip (its items, on success, come from the store); embed, search and
invoke are the Bedrock / OpenSearch results; the four index* fields are the
round trips of indexConversation. -/
structure SendEnv where
  userMsgDraws : List (Fin 62)
  tUser : Nat
  putUser : Except Err Unit
  historyFetch : Except Err Unit
  embed : Except Err (List ℚ)
  search : Except Err (List SearchHit)
  invoke : Except Err BedrockReply
  assistantMsgDraws : List (Fin 62)
  tAssistant : Nat
  procTime : Nat
  putAssistant : Except Err Unit
  updateSess : Except Err Unit
  indexUserEmbed : Except Err (List ℚ)
  indexAssistantEmbed : Except Err (List ℚ)
  indexUserDoc : Except Err Unit
  indexAssistantDoc : Except Err Unit
  deriving Repr

/-- Models ChatService.performRAGSearch: generateEmbedding then
hybridSearch inside one try/catch; when either round trip fails the catch
logs a warning and returns the empty hit list. -/
def performRAGSearch (env : SendEnv) : List SearchHit :=
  match env.embed with
  | .error _ => []
  | .ok _ =>
      match env.search with
      | .error _ => []
      | .ok hits => hits

/-- Context block assembled from the search hits: one line per hit,
`title: content.substring(0, 500)`, joined by blank lines.  A missing title
or content renders as the string "undefined" inside a JavaScript template
literal. -/
def ragContextBlock (hits : List SearchHit) : String :=
  String.intercalate "\n\n"
    (hits.map (fun h =>
      (h.title.getD "undefined") ++ ": " ++
        ((h.content.map (fun c => c.take 500)).getD "undefined")))

/-- Models ChatService.prepareMessagesForBedrock: an optional synthetic
context/acknowledgment turn pair when hits exist, then the last 8 history
messages, then the current user message. -/
def prepareMessagesForBedrock (history : List ChatMessage)
    (currentMessage : String) (hits : List SearchHit) : List BedrockMsg :=
  let contextTurns : List BedrockMsg :=
    if hits.length > 0 then
      [{ role := .user
         content := "Context information:\n" ++ ragContextBlock hits ++
           "\n\nPlease use this context to help answer questions about probation, violations, and case management. If the context doesn't contain relevant information, you can still provide helpful general guidance." },
       { role := .assistant
         content := "I understand. I'll use the provided context to help answer questions about probation and case management." }]
    else []
  contextTurns ++
    (jsSliceLast 8 history).map (fun m => { role := m.role, content := m.content }) ++
    [{ role := .user, content := currentMessage }]

/-- Models the indexDocument write into the chat-context OpenSearch index:
the document with the same id, if any, is replaced. -/
def putChatContext (st : Store) (m : ChatMessage) : Store :=
  { st with
    chatContext := (m.id, m) :: st.chatContext.filter (fun p => !(p.1 == m.id)) }

/-- Models ChatService.indexConversation: two generateEmbedding calls, then
indexDocument for the user message and for the assistant message, all
inside one try/catch whose handler only logs — no failure escapes, and a
failure after the first indexDocument leaves the user document indexed. -/
def indexConversation (st : Store) (env : SendEnv)
    (userMessage assistantMessage : ChatMessage) : Store :=
  match env.indexUserEmbed with
  | .error _ => st
  | .ok _ =>
      match env.indexAssistantEmbed with
      | .error _ => st
      | .ok _ =>
          match env.indexUserDoc with
          | .error _ => st
          | .ok _ =>
              let st1 := putChatContext st userMessage
              match env.indexAssistantDoc with
              | .error _ => st1
              | .ok _ => putChatContext st1 assistantMessage

/-- Models ChatService.sendMessage.  Returns the post-call store together
with the result; on a thrown error the writes already performed remain in
the store, as in the source (no transaction spans the steps).  The catch
block around the post-precondition steps logs and rethrows, so every error
raised inside it propagates unchanged. -/
def sendMessage (st : Store) (env : SendEnv) (sessionId userId message : String) :
    Store × Except Err ChatResponse :=
  match getSession st sessionId userId with
  | .error e => (st, .error e)
  | .ok session =>
    if !session.isActive then (st, .error .invalidSession)
    else
      let userMessage : ChatMessage :=
        { id := generateId "msg" env.userMsgDraws
          sessionId := sessionId
          role := .user
          content := message
          timestamp := env.tUser
          metadata := none }
      match env.putUser with
      | .error e => (st, .error e)
      | .ok _ =>
        let st1 := putMessage st userMessage
        match env.historyFetch with
        | .error e => (st1, .error e)
        | .ok _ =>
          let messageHistory := getChatHistory st1 sessionId 10
          let searchResults := performRAGSearch env
          let _msgs := prepareMessagesForBedrock messageHistory message searchResults
          match env.invoke with
          | .error e => (st1, .error e)
          | .ok reply =>
            let sources : List SourceRef := searchResults.map (fun r =>
              { id := r.id
                title := jsStrOr r.title "Document"
                excerpt := (r.content.map (fun c => c.take 200)).getD ""
                relevance := r.score
                source := jsStrOr r.source "knowledge_base" })
            let assistantMessage : ChatMessage :=
              { id := generateId "msg" env.assistantMsgDraws
                sessionId := sessionId
                role := .assistant
                content := reply.content
                timestamp := env.tAssistant
                metadata := some
                  { tokensUsed := reply.inputTokens + reply.outputTokens
                    processingTime := env.procTime
                    sources := sources } }
            match env.putAssistant with
            | .error e => (st1, .error e)
            | .ok _ =>
              let st2 := putMessage st1 assistantMessage
              match env.updateSess with
              | .error e => (st2, .error e)
              | .ok _ =>
                let st3 := updateSessionItem st2 sessionId
                  (fun s => { s with updatedAt := env.tAssistant })
                let st4 := indexConversation st3 env userMessage assistantMessage
                (st4,
                 .ok { message := reply.content
                       sessionId := sessionId
                       sources := sources
                       metadata :=
                         { tokensUsed := reply.inputTokens + reply.outputTokens
                           processingTime := env.procTime
                           confidence := 0.85 } })

/-- Models ChatService.getMessages: verify session access via getSession,
then getChatMessages with the caller-provided limit. -/
def getMessages (st : Store) (sessionId userId : String) (limit : Option Nat) :
    Except Err (List ChatMessage) :=
  match getSession st sessionId userId with
  | .error e => .error e
  | .ok _ => .ok (getChatMessages st sessionId limit)

/-- JSON values, the possible results of JSON.parse on a model reply. -/
inductive Json where
  | null
  | bool (b : Bool)
  | num (q : ℚ)
  | str (s : String)
  | arr (elems : List Json)
  | obj (fields : List (String × Json))
  deriving Repr

/-- Result of a JavaScript property access v.f on a parsed JSON value:
access on null raises a TypeError, on an object it is the field lookup,
and on any other value it yields undefined (none). -/
def jsField (v : Json) (f : String) : Except Err (Option Json) :=
  match v with
  | .null => .error .jsTypeError
  | .obj fields => .ok ((fields.find? (fun p => p.1 == f)).map Prod.snd)
  | _ => .ok none

/-- Runtime shape of the AnalysisResponse assembled by analyzeText: each
field is whatever property access on the parsed JSON value produced
(undefined, i.e. none, when the value lacks the field), plus the measured
processing time.  The TypeScript annotation promises concrete types, but
no runtime validation enforces them. -/
structure AnalysisResponse where
  violations : Option Json
  summary : Option Json
  riskScore : Option Json
  recommendations : Option Json
  processingTime : Nat
  deriving Repr

/-- Stored document record fields read or written by the analysis path. -/
structure DocumentRec where
  title : Option String
  contentType : Option String
  tags : List String
  analysisResult : Option AnalysisResponse
  analysisTimestamp : Option Nat
  deriving Repr

/-- Document context block built into the analysis context. -/
structure DocumentInfo where
  title : Option String
  contentType : Option String
  tags : List String
  deriving Repr

/-- Context assembled by buildAnalysisContext. -/
structure AnalysisContext where
  documentInfo : Option DocumentInfo
  metadata : Option Json
  deriving Repr

/-- Environment of one analyzeText call: the outcome of the documents
GetItem round trip, the model invocation, the JSON.parse of the reply
content, the result back-write round trip, and the clock readings. -/
structure AnalyzeEnv where
  docFetch : Except Err Unit
  invoke : Except Err BedrockReply
  parsed : Except Err Json
  storeResult : Except Err Unit
  procTime : Nat
  storeNow : Nat
  deriving Repr

/-- Models AnalysisService.buildAnalysisContext: when a documentId is
given, fetch the document inside a try/catch whose handler only logs (a
fetch failure leaves the context without document info); then attach the
caller metadata. -/
def buildAnalysisContext (docs : List (String × DocumentRec)) (env : AnalyzeEnv)
    (documentId : Option String) (metadata : Option Json) : AnalysisContext :=
  let docInfo : Option DocumentInfo :=
    match documentId with
    | none => none
    | some did =>
        match env.docFetch with
        | .error _ => none
        | .ok _ =>
            match (docs.find? (fun p => p.1 == did)).map Prod.snd with
            | none => none
            | some d =>
                some { title := d.title, contentType := d.contentType, tags := d.tags }
  { documentInfo := docInfo, metadata := metadata }

/-- Models BedrockClient.analyzeViolations: build the analysis prompt (its
text is inspected by nothing downstream and is not modelled), invoke the
chat model at temperature 0.3 with a 3000 token budget, then JSON.parse
the reply content.  A parse failure is wrapped into a new Error and
rethrown (here Err.parseFail) — no retry, no repair.  The source performs
no schema validation on the parsed value: any well-formed JSON value is
returned as the analysis result. -/
def analyzeViolations (env : AnalyzeEnv) : Except Err Json :=
  match env.invoke with
  | .error e => .error e
  | .ok _reply =>
      match env.parsed with
      | .error _ => .error .parseFail
      | .ok v => .ok v

/-- Models AnalysisService.storeAnalysisResult: an UpdateItem writing the
analysis result and a timestamp onto the document record, inside a
try/catch whose handler only logs — no failure escapes.  The DynamoDB
upsert branch for an absent document id is not modelled; no verified
claim reads the documents table contents. -/
def storeAnalysisResult (docs : List (String × DocumentRec)) (env : AnalyzeEnv)
    (documentId : String) (result : AnalysisResponse) : List (String × DocumentRec) :=
  match env.storeResult with
  | .error _ => docs
  | .ok _ =>
      docs.map (fun p =>
        if p.1 == documentId then
          (p.1, { p.2 with
                  analysisResult := some result
                  analysisTimestamp := some env.storeNow })
        else p)

/-- Models AnalysisService.analyzeText: build the context (best effort),
run analyzeViolations, read the four result fields off the parsed JSON
value by JavaScript property access, assemble the response, then — when a
documentId was supplied — back-write the result best effort.  The outer
try/catch logs and rethrows, so every error raised inside propagates
unchanged. -/
def analyzeText (docs : List (String × DocumentRec)) (env : AnalyzeEnv)
    (text : String) (documentId : Option String) (metadata : Option Json) :
    List (String × DocumentRec) × Except Err AnalysisResponse :=
  let _context := buildAnalysisContext docs env documentId metadata
  match analyzeViolations env with
  | .error e => (docs, .error e)
  | .ok analysisResult =>
      match jsField analysisResult "violations" with
      | .error e => (docs, .error e)
      | .ok violations =>
          match jsField analysisResult "summary" with
          | .error e => (docs, .error e)
          | .ok summary =>
              match jsField analysisResult "riskScore" with
              | .error e => (docs, .error e)
              | .ok riskScore =>
                  match jsField analysisResult "recommendations" with
                  | .error e => (docs, .error e)
                  | .ok recommendations =>
                      let response : AnalysisResponse :=
                        { violations := violations
                          summary := summary
                          riskScore := riskScore
                          recommendations := recommendations
                          processingTime := env.procTime }
                      match documentId with
                      | none => (docs, .ok response)
                      | some did =>
                          (storeAnalysisResult docs env did response, .ok response)

/-- Follows the words of the spec, not the source (a comparison
definition): the documented JSON shape of the analysis reply — an object
whose violations field is an array, summary a string, riskScore a number
and recommendations an array. -/
def specDocumentedShape (v : Json) : Bool :=
  match v with
  | .obj fields =>
      (match (fields.find? (fun p => p.1 == "violations")).map Prod.snd with
       | some (.arr _) => true
       | _ => false) &&
      (match (fields.find? (fun p => p.1 == "summary")).map Prod.snd with
       | some (.str _) => true
       | _ => false) &&
      (match (fields.find? (fun p => p.1 == "riskScore")).map Prod.snd with
       | some (.num _) => true
       | _ => false) &&
      (match (fields.find? (fun p => p.1 == "recommendations")).map Prod.snd with
       | some (.arr _) => true
       | _ => false)
  | _ => false

/-- Distinctness of the chat-messages composite primary keys: DynamoDB
maintains at most one item per (sessionId, timestamp) pair, and putMessage
preserves this. -/
def MsgKeysDistinct (st : Store) : Prop :=
  st.messages.Pairwise
    (fun a b => ¬(a.sessionId = b.sessionId ∧ a.timestamp = b.timestamp))

instance (st : Store) : Decidable (MsgKeysDistinct st) := by
  unfold MsgKeysDistinct
  infer_instance

/-- Number of stored user-role messages of one session. -/
def countUserMessages (st : Store) (sessionId : String) : Nat :=
  (st.messages.filter (fun m => m.sessionId == sessionId && m.role == Role.user)).length

/-! Concrete fixtures used by counterexamples and witnesses. -/

/-- An active session with id "s" owned by user "u". -/
def sessionS : ChatSession :=
  { id := "s", userId := "u", title := "T", createdAt := 0, updatedAt := 0, isActive := true }

/-- Empty store. -/
def store0 : Store := { sessions := [], messages := [], chatContext := [] }

/-- Store holding the active session and no messages. -/
def storeOk : Store := { sessions := [sessionS], messages := [], chatContext := [] }

/-- A concrete model reply. -/
def replyHello : BedrockReply := { content := "Hello!", inputTokens := 3, outputTokens := 2 }

/-- A sendMessage environment in which every external round trip succeeds
and retrieval returns no hits. -/
def envAllOk : SendEnv :=
  { userMsgDraws := List.replicate 8 0
    tUser := 1
    putUser := .ok ()
    historyFetch := .ok ()
    embed := .ok []
    search := .ok []
    invoke := .ok replyHello
    assistantMsgDraws := List.replicate 8 1
    tAssistant := 2
    procTime := 5
    putAssistant := .ok ()
    updateSess := .ok ()
    indexUserEmbed := .ok []
    indexAssistantEmbed := .ok []
    indexUserDoc := .ok ()
    indexAssistantDoc := .ok () }

/-- Stored user message number i of session "s", timestamp i. -/
def mkNumberedMsg (i : Nat) : ChatMessage :=
  { id := "m" ++ toString i
    sessionId := "s"
    role := .user
    content := "c" ++ toString i
    timestamp := i
    metadata := none }

/-- Store holding session "s" with 21 stored messages, timestamps 1..21. -/
def store21 : Store :=
  { sessions := [sessionS]
    messages := (List.range 21).map (fun i => mkNumberedMsg (i + 1))
    chatContext := [] }

/-- Claim C1 (code_bug, evaluation at the failing input): for a session
holding 21 stored messages with timestamps 1..21, getChatHistory with
N = 10 keeps the messages with timestamps 11..20 — the last 10 of the
OLDEST 20 read by the ascending Query with Limit 20 — while the 10 most
recent messages of the session are those with timestamps 12..21.  The kept
history is an old window, not the most recent 10 messages, contradicting
the claim (and the source comment "Return the most recent messages"). -/
theorem history_keeps_old_window_c1 :
    (getChatHistory store21 "s" 10).map ChatMessage.timestamp
      = [11, 12, 13, 14, 15, 16, 17, 18, 19, 20] ∧
    (jsSliceLast 10 (sessionMessages store21 "s")).map ChatMessage.timestamp
      = [12, 13, 14, 15, 16, 17, 18, 19, 20, 21] ∧
    getChatHistory store21 "s" 10 ≠ jsSliceLast 10 (sessionMessages store21 "s") := by
  refine ⟨by decide, by decide, by decide⟩

/-- CreateEnv whose generateId draws all pick index 0. -/
def envCreateZeros : CreateEnv :=
  { draws := List.replicate 8 0, now := 0, putResult := .ok () }

/-- Claim C8 (counterexample): two distinct createSession calls, under the
random outcome in which every Math.random draw picks index 0 in both
calls, mint the same identifier "sess_AAAAAAAA"; the minted identifiers do
NOT differ for every outcome of the random choices in the id generator. -/
theorem duplicate_id_outcome_c8_cex :
    (createSession store0 envCreateZeros "u" "A").2.map ChatSession.id
      = .ok "sess_AAAAAAAA" ∧
    (createSession (createSession store0 envCreateZeros "u" "A").1
        envCreateZeros "u" "B").2.map ChatSession.id
      = .ok "sess_AAAAAAAA" := by
  exact ⟨rfl, rfl⟩

set_option maxRecDepth 4000 in
theorem idCharAt_injective : Function.Injective idCharAt := by decide

theorem string_data_append (a b : String) : (a ++ b).data = a.data ++ b.data := rfl

/-- Claim C8 (amended): identifiers minted by generateId with a fixed
prefix are injective in the random draws — two create operations whose
random outcomes differ mint different identifiers — but uniqueness over
every outcome does not hold, since equal draws repeat the identifier. -/
theorem generateId_distinct_draws_c8 (pre : String) (draws1 draws2 : List (Fin 62))
    (h : draws1 ≠ draws2) : generateId pre draws1 ≠ generateId pre draws2 := by
  intro heq
  apply h
  apply List.map_injective_iff.mpr idCharAt_injective
  by_cases hpre : pre = ""
  · simp only [generateId, hpre, if_pos rfl] at heq
    exact congrArg String.data heq
  · simp only [generateId, if_neg hpre] at heq
    have hd := congrArg String.data heq
    rw [string_data_append, string_data_append] at hd
    exact List.append_cancel_left hd

/-- Witness for the amended C8 theorem at concrete draws. -/
theorem generateId_distinct_draws_c8_witness :
    generateId "sess" (List.replicate 8 (0 : Fin 62))
      ≠ generateId "sess" (List.replicate 8 (1 : Fin 62)) :=
  generateId_distinct_draws_c8 "sess" _ _ (by decide)

/-- Claim C4: sendMessage on an existing session owned by the caller whose
isActive flag is false always fails with the INVALID_SESSION error and
performs no message writes: the store, in particular its message list, is
unchanged, and the session record is returned intact — not reactivated. -/
theorem inactive_session_rejected_c4 (st : Store) (env : SendEnv)
    (sessionId userId message : String) (s : ChatSession)
    (hs : getChatSession st sessionId = some s) (ho : s.userId = userId)
    (hi : s.isActive = false) :
    sendMessage st env sessionId userId message = (st, .error .invalidSession) ∧
    (sendMessage st env sessionId userId message).1.messages = st.messages ∧
    getChatSession (sendMessage st env sessionId userId message).1 sessionId = some s := by
  have h1 : sendMessage st env sessionId userId message = (st, .error .invalidSession) := by
    simp [sendMessage, getSession, hs, ho, hi]
  exact ⟨h1, by rw [h1], by rw [h1]; exact hs⟩

/-- An inactive (soft-deleted) session owned by user "u". -/
def sessionInactive : ChatSession :=
  { id := "d", userId := "u", title := "T", createdAt := 0, updatedAt := 0, isActive := false }

/-- Store holding only the inactive session. -/
def storeInactive : Store :=
  { sessions := [sessionInactive], messages := [], chatContext := [] }

/-- Witness for C4 at a concrete inactive session. -/
theorem inactive_session_rejected_c4_witness :
    sendMessage storeInactive envAllOk "d" "u" "hi"
      = (storeInactive, .error .invalidSession) ∧
    (sendMessage storeInactive envAllOk "d" "u" "hi").1.messages = storeInactive.messages ∧
    getChatSession (sendMessage storeInactive envAllOk "d" "u" "hi").1 "d"
      = some sessionInactive :=
  inactive_session_rejected_c4 storeInactive envAllOk "d" "u" "hi" sessionInactive rfl rfl rfl

theorem find?_map_preserving (l : List ChatSession) (sid : String)
    (f : ChatSession → ChatSession) (hf : ∀ s, (f s).id = s.id) (s : ChatSession)
    (hs : l.find? (fun x => x.id == sid) = some s) :
    (l.map (fun x => if x.id == sid then f x else x)).find? (fun x => x.id == sid)
      = some (f s) := by
  induction l with
  | nil => simp at hs
  | cons a l ih =>
    cases h : (a.id == sid) with
    | true =>
      rw [List.find?_cons, h] at hs
      injection hs with hs
      subst hs
      have hfa : ((f a).id == sid) = true := by rw [hf]; exact h
      rw [List.map_cons, if_pos h, List.find?_cons, hfa]
    | false =>
      rw [List.find?_cons, h] at hs
      have hga : (if (a.id == sid) = true then f a else a) = a := by
        rw [if_neg]
        simp [h]
      rw [List.map_cons, hga, List.find?_cons, h]
      exact ih hs

/-- Claim C7: deleteSession is idempotent — on a session owned by the
caller the first call succeeds, a second call also succeeds without error,
and after either one or two calls the session has isActive = false. -/
theorem delete_idempotent_c7 (st : Store) (env1 env2 : DeleteEnv)
    (sessionId userId : String) (s : ChatSession)
    (hs : getChatSession st sessionId = some s) (ho : s.userId = userId)
    (h1 : env1.updateResult = .ok ()) (h2 : env2.updateResult = .ok ()) :
    (deleteSession st env1 sessionId userId).2 = .ok () ∧
    (deleteSession (deleteSession st env1 sessionId userId).1 env2 sessionId userId).2
      = .ok () ∧
    (getChatSession (deleteSession st env1 sessionId userId).1 sessionId).map
        ChatSession.isActive = some false ∧
    (getChatSession (deleteSession (deleteSession st env1 sessionId userId).1 env2
        sessionId userId).1 sessionId).map ChatSession.isActive = some false := by
  have hd1 : deleteSession st env1 sessionId userId =
      (updateSessionItem st sessionId
        (fun x => { x with isActive := false, updatedAt := env1.now }), .ok ()) := by
    simp [deleteSession, getSession, hs, ho, h1]
  set st1 := (deleteSession st env1 sessionId userId).1 with hst1
  have hg1 : getChatSession st1 sessionId
      = some { s with isActive := false, updatedAt := env1.now } := by
    rw [hst1, hd1]
    simpa [getChatSession, updateSessionItem] using
      find?_map_preserving st.sessions sessionId
        (fun x => { x with isActive := false, updatedAt := env1.now })
        (fun _ => rfl) s hs
  have hd2 : deleteSession st1 env2 sessionId userId =
      (updateSessionItem st1 sessionId
        (fun x => { x with isActive := false, updatedAt := env2.now }), .ok ()) := by
    simp [deleteSession, getSession, hg1, ho, h2]
  have hg2 : getChatSession (deleteSession st1 env2 sessionId userId).1 sessionId
      = some { s with isActive := false, updatedAt := env2.now } := by
    rw [hd2]
    simpa [getChatSession, updateSessionItem] using
      find?_map_preserving st1.sessions sessionId
        (fun x => { x with isActive := false, updatedAt := env2.now })
        (fun _ => rfl) _ hg1
  exact ⟨by rw [hd1], by rw [hd2], by simp [hg1], by simp [hg2]⟩

/-- DeleteEnv with a successful update round trip. -/
def envDeleteOk : DeleteEnv := { updateResult := .ok (), now := 3 }

/-- Witness for C7 at the concrete active session. -/
theorem delete_idempotent_c7_witness :
    (deleteSession storeOk envDeleteOk "s" "u").2 = .ok () ∧
    (deleteSession (deleteSession storeOk envDeleteOk "s" "u").1 envDeleteOk "s" "u").2
      = .ok () ∧
    (getChatSession (deleteSession storeOk envDeleteOk "s" "u").1 "s").map
        ChatSession.isActive = some false ∧
    (getChatSession (deleteSession (deleteSession storeOk envDeleteOk "s" "u").1 envDeleteOk
        "s" "u").1 "s").map ChatSession.isActive = some false :=
  delete_idempotent_c7 storeOk envDeleteOk envDeleteOk "s" "u" sessionS rfl rfl rfl rfl

/-- SendEnv in which the assistant-message put round trip fails while the
user-message put and the model invocation succeed. -/
def envAssistantPutFails : SendEnv :=
  { envAllOk with putAssistant := .error .dynamoFail }

/-- Claim C2 (counterexample): with the preconditions holding, the
user-message write succeeding (step 1) and the model invocation succeeding
(step 5), a failure of the assistant-message write still fails the whole
sendMessage call — a step other than steps 1 and 5 makes the operation
fail, contradicting the claimed failure surface. -/
theorem send_fails_from_assistant_put_c2_cex :
    envAssistantPutFails.putUser = .ok () ∧
    envAssistantPutFails.invoke = .ok replyHello ∧
    (sendMessage storeOk envAssistantPutFails "s" "u" "hi").2 = .error .dynamoFail := by
  exact ⟨rfl, rfl, rfl⟩

/-- Claim C2 (amended): with the preconditions holding (session exists,
owned by the caller, active), sendMessage returns a reply whenever the
five mandatory round trips succeed — user-message write, history query,
model invocation, assistant-message write, session-timestamp update — for
every outcome of the retrieval calls and of the post-reply indexing
calls; and whenever it fails, the surfaced error is the error of one of
those five mandatory round trips (in particular, retrieval and post-reply
indexing never cause the failure). -/
theorem send_failure_surface_c2 (st : Store) (env : SendEnv)
    (sessionId userId message : String) (s : ChatSession)
    (hs : getChatSession st sessionId = some s) (ho : s.userId = userId)
    (ha : s.isActive = true) :
    ((env.putUser = .ok () ∧ env.historyFetch = .ok () ∧
      (∃ reply, env.invoke = .ok reply) ∧ env.putAssistant = .ok () ∧
      env.updateSess = .ok ()) →
      (sendMessage st env sessionId userId message).2.toOption.isSome = true) ∧
    (∀ e, (sendMessage st env sessionId userId message).2 = .error e →
      env.putUser = .error e ∨ env.historyFetch = .error e ∨
      env.invoke = .error e ∨ env.putAssistant = .error e ∨
      env.updateSess = .error e) := by
  have hgs : getSession st sessionId userId = .ok s := by
    simp [getSession, hs, ho]
  constructor
  · rintro ⟨h1, h2, ⟨reply, h3⟩, h4, h5⟩
    simp [sendMessage, hgs, ha, h1, h2, h3, h4, h5, Except.toOption]
  · intro e he
    cases h1 : env.putUser with
    | error e1 =>
        simp [sendMessage, hgs, ha, h1] at he
        subst he
        exact Or.inl rfl
    | ok u1 =>
        cases u1
        cases h2 : env.historyFetch with
        | error e2 =>
            simp [sendMessage, hgs, ha, h1, h2] at he
            subst he
            exact Or.inr (Or.inl rfl)
        | ok u2 =>
            cases u2
            cases h3 : env.invoke with
            | error e3 =>
                simp [sendMessage, hgs, ha, h1, h2, h3] at he
                subst he
                exact Or.inr (Or.inr (Or.inl rfl))
            | ok reply =>
                cases h4 : env.putAssistant with
                | error e4 =>
                    simp [sendMessage, hgs, ha, h1, h2, h3, h4] at he
                    subst he
                    exact Or.inr (Or.inr (Or.inr (Or.inl rfl)))
                | ok u4 =>
                    cases u4
                    cases h5 : env.updateSess with
                    | error e5 =>
                        simp [sendMessage, hgs, ha, h1, h2, h3, h4, h5] at he
                        subst he
                        exact Or.inr (Or.inr (Or.inr (Or.inr rfl)))
                    | ok u5 =>
                        cases u5
                        simp [sendMessage, hgs, ha, h1, h2, h3, h4, h5] at he

/-- Witness for the amended C2 theorem at the concrete active session. -/
theorem send_failure_surface_c2_witness :
    ((envAllOk.putUser = .ok () ∧ envAllOk.historyFetch = .ok () ∧
      (∃ reply, envAllOk.invoke = .ok reply) ∧ envAllOk.putAssistant = .ok () ∧
      envAllOk.updateSess = .ok ()) →
      (sendMessage storeOk envAllOk "s" "u" "hi").2.toOption.isSome = true) ∧
    (∀ e, (sendMessage storeOk envAllOk "s" "u" "hi").2 = .error e →
      envAllOk.putUser = .error e ∨ envAllOk.historyFetch = .error e ∨
      envAllOk.invoke = .error e ∨ envAllOk.putAssistant = .error e ∨
      envAllOk.updateSess = .error e) :=
  send_failure_surface_c2 storeOk envAllOk "s" "u" "hi" sessionS rfl rfl rfl

/-- A user message of session "s" stored at timestamp 5. -/
def msgOld5 : ChatMessage :=
  { id := "m-old", sessionId := "s", role := .user, content := "old",
    timestamp := 5, metadata := none }

/-- Store holding the active session and the stored message at timestamp 5. -/
def storeMsg5 : Store :=
  { sessions := [sessionS], messages := [msgOld5], chatContext := [] }

/-- SendEnv whose user-message clock reading collides with the stored
timestamp 5 and whose model invocation fails. -/
def envCollide5Fail : SendEnv :=
  { envAllOk with tUser := 5, invoke := .error .bedrockFail }

/-- Claim C5 (counterexample): on a call whose user-message timestamp
equals the timestamp of an already stored message of the session, the
user-message put overwrites that stored message (equal composite key), so
when the model invocation then fails the stored user-message count is
unchanged — 1 before, 1 after — instead of increasing by exactly 1. -/
theorem user_count_not_incremented_c5_cex :
    countUserMessages storeMsg5 "s" = 1 ∧
    (sendMessage storeMsg5 envCollide5Fail "s" "u" "again").2 = .error .bedrockFail ∧
    countUserMessages (sendMessage storeMsg5 envCollide5Fail "s" "u" "again").1 "s" = 1 := by
  exact ⟨rfl, rfl, rfl⟩

/-- Claim C5 (amended): on an existing, owned, active session, when the
user-message put succeeds and no already stored message of the session
carries the same timestamp, the user message is persisted before any model
call: even when the model invocation fails (the history query having
succeeded), the call surfaces that error while the minted user message is
in the store and the stored user-message count has increased by exactly 1. -/
theorem user_message_persisted_c5 (st : Store) (env : SendEnv)
    (sessionId userId message : String) (s : ChatSession) (e : Err)
    (hs : getChatSession st sessionId = some s) (ho : s.userId = userId)
    (ha : s.isActive = true) (hput : env.putUser = .ok ())
    (hhist : env.historyFetch = .ok ()) (hinv : env.invoke = .error e)
    (hfresh : ∀ m ∈ st.messages, ¬(m.sessionId = sessionId ∧ m.timestamp = env.tUser)) :
    (sendMessage st env sessionId userId message).2 = .error e ∧
    { id := generateId "msg" env.userMsgDraws
      sessionId := sessionId
      role := Role.user
      content := message
      timestamp := env.tUser
      metadata := none } ∈ (sendMessage st env sessionId userId message).1.messages ∧
    countUserMessages (sendMessage st env sessionId userId message).1 sessionId
      = countUserMessages st sessionId + 1 := by
  have hgs : getSession st sessionId userId = .ok s := by
    simp [getSession, hs, ho]
  have hsend : sendMessage st env sessionId userId message =
      (putMessage st
        { id := generateId "msg" env.userMsgDraws, sessionId := sessionId,
          role := Role.user, content := message, timestamp := env.tUser,
          metadata := none },
       .error e) := by
    simp [sendMessage, hgs, ha, hput, hhist, hinv]
  have hfilter : st.messages.filter
      (fun x => !(x.sessionId == sessionId && x.timestamp == env.tUser)) = st.messages := by
    apply List.filter_eq_self.mpr
    intro m hm
    by_cases h1 : m.sessionId = sessionId
    · by_cases h2 : m.timestamp = env.tUser
      · exact absurd ⟨h1, h2⟩ (hfresh m hm)
      · simp [h1, h2]
    · simp [h1]
  have hmsgs : (putMessage st
      { id := generateId "msg" env.userMsgDraws, sessionId := sessionId,
        role := Role.user, content := message, timestamp := env.tUser,
        metadata := none }).messages =
      { id := generateId "msg" env.userMsgDraws, sessionId := sessionId,
        role := Role.user, content := message, timestamp := env.tUser,
        metadata := none } :: st.messages := by
    simp only [putMessage]
    rw [hfilter]
  refine ⟨by rw [hsend], ?_, ?_⟩
  · rw [hsend]
    rw [hmsgs]
    exact List.mem_cons_self _ _
  · rw [hsend]
    simp only [countUserMessages, hmsgs, List.filter_cons]
    simp

/-- SendEnv in which only the model invocation fails. -/
def envInvokeFails : SendEnv := { envAllOk with invoke := .error .bedrockFail }

/-- Witness for the amended C5 theorem at the concrete active session with
no stored messages. -/
theorem user_message_persisted_c5_witness :
    (sendMessage storeOk envInvokeFails "s" "u" "hi").2 = .error .bedrockFail ∧
    { id := generateId "msg" envInvokeFails.userMsgDraws
      sessionId := "s"
      role := Role.user
      content := "hi"
      timestamp := envInvokeFails.tUser
      metadata := none } ∈ (sendMessage storeOk envInvokeFails "s" "u" "hi").1.messages ∧
    countUserMessages (sendMessage storeOk envInvokeFails "s" "u" "hi").1 "s"
      = countUserMessages storeOk "s" + 1 :=
  user_message_persisted_c5 storeOk envInvokeFails "s" "u" "hi" sessionS .bedrockFail
    rfl rfl rfl rfl rfl rfl (by simp [storeOk])

/-- Claim C6: with the preconditions holding and the mandatory round trips
succeeding, when the retrieval step fails — the embedding call or the
hybrid search call throws — sendMessage still completes and the returned
reply carries an empty sources list; the retrieval failure is not
surfaced. -/
theorem rag_failure_empty_sources_c6 (st : Store) (env : SendEnv)
    (sessionId userId message : String) (s : ChatSession) (reply : BedrockReply)
    (hs : getChatSession st sessionId = some s) (ho : s.userId = userId)
    (ha : s.isActive = true) (hput : env.putUser = .ok ())
    (hhist : env.historyFetch = .ok ()) (hinv : env.invoke = .ok reply)
    (hpa : env.putAssistant = .ok ()) (hus : env.updateSess = .ok ())
    (hfail : (∃ e, env.embed = .error e) ∨ (∃ e, env.search = .error e)) :
    ((sendMessage st env sessionId userId message).2.toOption.map ChatResponse.sources)
      = some [] := by
  have hgs : getSession st sessionId userId = .ok s := by
    simp [getSession, hs, ho]
  have hr : performRAGSearch env = [] := by
    rcases hfail with ⟨e, he⟩ | ⟨e, he⟩
    · simp [performRAGSearch, he]
    · cases hembed : env.embed <;> simp [performRAGSearch, hembed, he]
  simp [sendMessage, hgs, ha, hput, hhist, hinv, hpa, hus, hr, Except.toOption]

/-- SendEnv in which the embedding call of the retrieval step fails. -/
def envEmbedFails : SendEnv := { envAllOk with embed := .error .bedrockFail }

/-- Witness for C6 at the concrete active session with a failing embedding
call. -/
theorem rag_failure_empty_sources_c6_witness :
    ((sendMessage storeOk envEmbedFails "s" "u" "hi").2.toOption.map ChatResponse.sources)
      = some [] :=
  rag_failure_empty_sources_c6 storeOk envEmbedFails "s" "u" "hi" sessionS replyHello
    rfl rfl rfl rfl rfl rfl rfl rfl (Or.inl ⟨.bedrockFail, rfl⟩)

/-- Claim C10: every successful sendMessage call returns
metadata.confidence = 0.85, a constant independent of the user input, the
retrieval results and their relevance scores. -/
theorem confidence_constant_c10 (st : Store) (env : SendEnv)
    (sessionId userId message : String) (r : ChatResponse)
    (h : (sendMessage st env sessionId userId message).2 = .ok r) :
    r.metadata.confidence = 0.85 := by
  unfold sendMessage at h
  repeat' split at h
  all_goals simp at h
  all_goals rw [← h]

/-- Witness for C10 at a concrete successful call. -/
theorem confidence_constant_c10_witness :
    ((sendMessage storeOk envAllOk "s" "u" "hi").2.toOption.getD
        { message := "", sessionId := "", sources := [],
          metadata := { tokensUsed := 0, processingTime := 0, confidence := 0 } }
      ).metadata.confidence = 0.85 :=
  confidence_constant_c10 storeOk envAllOk "s" "u" "hi" _ (by rfl)

/-- SendEnv whose user-message clock reading collides with the stored
timestamp 5 and in which every external round trip succeeds. -/
def envCollide5 : SendEnv := { envAllOk with tUser := 5, tAssistant := 6 }

/-- Claim C3 (counterexample): a successful sendMessage whose user-message
timestamp equals the timestamp of a message already stored for the session
overwrites that stored message — it is gone from the store afterwards —
refuting that no previously stored message is ever overwritten when two
messages of a session are written with equal timestamps. -/
theorem equal_timestamp_overwrite_c3_cex :
    msgOld5 ∈ storeMsg5.messages ∧
    (sendMessage storeMsg5 envCollide5 "s" "u" "hi").2.toOption.isSome = true ∧
    msgOld5 ∉ (sendMessage storeMsg5 envCollide5 "s" "u" "hi").1.messages := by
  refine ⟨by decide, by decide, by decide⟩

/-- Claim C3 (amended): with the composite keys (sessionId, timestamp)
distinct in the store — the invariant the DynamoDB table maintains —
getMessages returns the messages of the session in strictly ascending
timestamp order, and a put whose (sessionId, timestamp) key matches no
stored message preserves every stored message (append-only under fresh
keys); a put on an already used key overwrites instead, so strictly
increasing timestamps are an input obligation the code does not enforce,
not a guarantee. -/
theorem messages_sorted_fresh_put_c3 (st : Store) (hwf : MsgKeysDistinct st)
    (sessionId userId : String) (limit : Option Nat) (msgs : List ChatMessage)
    (hq : getMessages st sessionId userId limit = .ok msgs)
    (m newMsg : ChatMessage) (hm : m ∈ st.messages)
    (hkey : ¬(m.sessionId = newMsg.sessionId ∧ m.timestamp = newMsg.timestamp)) :
    msgs.Pairwise (fun a b => a.timestamp < b.timestamp) ∧
    m ∈ (putMessage st newMsg).messages := by
  constructor
  · have hmsgs : msgs.Sublist (sessionMessages st sessionId) := by
      unfold getMessages at hq
      cases hgs : getSession st sessionId userId with
      | error e => rw [hgs] at hq; exact absurd hq (by simp)
      | ok s =>
          rw [hgs] at hq
          simp only [Except.ok.injEq] at hq
          subst hq
          cases limit with
          | none => exact List.Sublist.refl _
          | some l =>
              simp only [getChatMessages]
              by_cases hl : l = 0
              · rw [if_pos hl]
              · rw [if_neg hl]
                exact List.take_sublist _ _
    have hsorted : List.Pairwise msgLe (sessionMessages st sessionId) := by
      unfold sessionMessages
      exact List.sorted_insertionSort msgLe _
    have hperm := List.perm_insertionSort msgLe
      (st.messages.filter (fun x => x.sessionId == sessionId))
    have hKsymm : ∀ {x y : ChatMessage},
        ¬(x.sessionId = y.sessionId ∧ x.timestamp = y.timestamp) →
        ¬(y.sessionId = x.sessionId ∧ y.timestamp = x.timestamp) := by
      intro x y h hc
      exact h ⟨hc.1.symm, hc.2.symm⟩
    have hK : (sessionMessages st sessionId).Pairwise
        (fun a b => ¬(a.sessionId = b.sessionId ∧ a.timestamp = b.timestamp)) := by
      unfold sessionMessages
      exact (hperm.pairwise_iff hKsymm).mpr (hwf.filter _)
    have hmemsid : ∀ a ∈ sessionMessages st sessionId, a.sessionId = sessionId := by
      intro a ha
      have hmem : a ∈ st.messages.filter (fun x => x.sessionId == sessionId) :=
        hperm.mem_iff.mp (by simpa [sessionMessages] using ha)
      simpa using (List.mem_filter.mp hmem).2
    have hne : (sessionMessages st sessionId).Pairwise
        (fun a b => a.timestamp ≠ b.timestamp) := by
      refine hK.imp_of_mem ?_
      intro a b ha hb hk ht
      exact hk ⟨(hmemsid a ha).trans (hmemsid b hb).symm, ht⟩
    have hlt : (sessionMessages st sessionId).Pairwise
        (fun a b => a.timestamp < b.timestamp) := by
      refine (hsorted.and hne).imp ?_
      rintro a b ⟨hle, hneq⟩
      exact lt_of_le_of_ne hle hneq
    exact List.Pairwise.sublist hmsgs hlt
  · have hpred : (!(m.sessionId == newMsg.sessionId
        && m.timestamp == newMsg.timestamp)) = true := by
      by_cases h1 : m.sessionId = newMsg.sessionId
      · by_cases h2 : m.timestamp = newMsg.timestamp
        · exact absurd ⟨h1, h2⟩ hkey
        · simp [h1, h2]
      · simp [h1]
    unfold putMessage
    exact List.mem_cons_of_mem _ (List.mem_filter.mpr ⟨hm, hpred⟩)

/-- Store with session "s" and two stored messages at timestamps 1 and 2. -/
def storeTwoMsgs : Store :=
  { sessions := [sessionS]
    messages := [mkNumberedMsg 1, mkNumberedMsg 2]
    chatContext := [] }

/-- A message for session "s" at the unused timestamp 9. -/
def msgFresh9 : ChatMessage :=
  { id := "m9", sessionId := "s", role := .user, content := "new",
    timestamp := 9, metadata := none }

/-- Witness for the amended C3 theorem at a concrete two-message store. -/
theorem messages_sorted_fresh_put_c3_witness :
    ([mkNumberedMsg 1, mkNumberedMsg 2].Pairwise
      (fun a b => a.timestamp < b.timestamp)) ∧
    mkNumberedMsg 1 ∈ (putMessage storeTwoMsgs msgFresh9).messages :=
  messages_sorted_fresh_put_c3 storeTwoMsgs (by decide) "s" "u" (some 20)
    [mkNumberedMsg 1, mkNumberedMsg 2] rfl
    (mkNumberedMsg 1) msgFresh9 (by decide) (by decide)

/-- AnalyzeEnv in which the model replies and the reply parses to the JSON
number 42 — well-formed JSON that is not of the documented shape. -/
def envParsedNum : AnalyzeEnv :=
  { docFetch := .ok (), invoke := .ok replyHello, parsed := .ok (.num 42),
    storeResult := .ok (), procTime := 7, storeNow := 0 }

/-- Claim C9 (counterexample): a model reply parsing to the JSON number 42
— well-formed JSON that is not the documented shape — is accepted by
analyzeText without error: the call succeeds and every result field is
undefined.  The parse step performs no shape validation; it does not parse
strictly as the documented JSON shape. -/
theorem unvalidated_parse_accepted_c9_cex :
    (analyzeText [] envParsedNum "text" none none).2
      = .ok { violations := none, summary := none, riskScore := none,
              recommendations := none, processingTime := 7 } ∧
    specDocumentedShape (Json.num 42) = false := by
  exact ⟨rfl, rfl⟩

/-- Claim C9 (amended): analyzeText parses the model reply as JSON without
shape validation.  A JSON parse failure is fatal and surfaces as the
wrapped parse error (no retry, no repair, never swallowed); a reply that
parses to null throws a TypeError at the first result-field property
access, rethrown by the outer catch; every other well-formed JSON value is
accepted, a non-conforming one merely leaving the result fields undefined;
and neither a document-context lookup failure nor a result back-write
failure ever fails the analysis. -/
theorem analysis_error_surface_c9 (docs : List (String × DocumentRec))
    (env : AnalyzeEnv) (text : String) (documentId : Option String)
    (metadata : Option Json) (reply : BedrockReply)
    (hinv : env.invoke = .ok reply) :
    ((∃ e, env.parsed = .error e) →
      (analyzeText docs env text documentId metadata).2 = .error .parseFail) ∧
    (env.parsed = .ok .null →
      (analyzeText docs env text documentId metadata).2 = .error .jsTypeError) ∧
    (∀ v, env.parsed = .ok v → v ≠ .null →
      (analyzeText docs env text documentId metadata).2.toOption.isSome = true) := by
  refine ⟨?_, ?_, ?_⟩
  · rintro ⟨e, he⟩
    simp [analyzeText, analyzeViolations, hinv, he]
  · intro hv
    simp [analyzeText, analyzeViolations, hinv, hv, jsField]
  · intro v hv hnull
    have hfield : ∀ f, ∃ o, jsField v f = .ok o := by
      intro f
      cases v with
      | null => exact absurd rfl hnull
      | bool b => exact ⟨none, rfl⟩
      | num q => exact ⟨none, rfl⟩
      | str s => exact ⟨none, rfl⟩
      | arr elems => exact ⟨none, rfl⟩
      | obj fields => exact ⟨_, rfl⟩
    obtain ⟨o1, h1⟩ := hfield "violations"
    obtain ⟨o2, h2⟩ := hfield "summary"
    obtain ⟨o3, h3⟩ := hfield "riskScore"
    obtain ⟨o4, h4⟩ := hfield "recommendations"
    cases documentId with
    | none =>
        simp [analyzeText, analyzeViolations, hinv, hv, h1, h2, h3, h4, Except.toOption]
    | some did =>
        simp [analyzeText, analyzeViolations, hinv, hv, h1, h2, h3, h4, Except.toOption]

/-- AnalyzeEnv replying with an empty JSON object while both best-effort
round trips (document fetch, result back-write) fail. -/
def envParsedObj : AnalyzeEnv :=
  { docFetch := .error .dynamoFail, invoke := .ok replyHello,
    parsed := .ok (.obj []), storeResult := .error .dynamoFail,
    procTime := 7, storeNow := 0 }

/-- Witness for the amended C9 theorem: with both best-effort round trips
failing, the analysis still succeeds on a parsed JSON object. -/
theorem analysis_error_surface_c9_witness :
    ((∃ e, envParsedObj.parsed = .error e) →
      (analyzeText [] envParsedObj "text" (some "doc-1") none).2 = .error .parseFail) ∧
    (envParsedObj.parsed = .ok .null →
      (analyzeText [] envParsedObj "text" (some "doc-1") none).2 = .error .jsTypeError) ∧
    (∀ v, envParsedObj.parsed = .ok v → v ≠ .null →
      (analyzeText [] envParsedObj "text" (some "doc-1") none).2.toOption.isSome = true) :=
  analysis_error_surface_c9 [] envParsedObj "text" (some "doc-1") none replyHello rfl

end AwsAi
